import Mathlib

/-!
Shallow embedding of the button-activity classifier of
`custom_components/lutron_custom/__init__.py` (class `LutronButton`).

The classifier is a per-button state machine driven by raw PRESS/RELEASE
callbacks from pylutron.  Its mutable state is the slot `self.timer`
(at most one `threading.Timer`) guarded by `self.lock`; events are fired
through `button_action`, which builds a fixed payload and both fires a bus
event and appends a logbook entry.

Two embeddings are developed:

* a lock-serialized model (`BState`, `button_callback`, `timer_fire`) in
  which every `with self.lock:` block is one atomic step — adequate for the
  properties that do not depend on the timer-expiry race;
* a finer race model (`RState`, `deliverR`, `expireR`, `runR`) in which a
  `threading.Timer` is an explicit object whose expiry (the point after
  which `Timer.cancel()` no longer prevents the callback) is a separate
  step from the callback body running under the lock.  This captures the
  semantics of `threading.Timer`: `cancel()` only stops a timer that has
  not yet passed its wait, and a callback that already expired runs as soon
  as it can take the lock.

A third, fallible model (`EState`, `button_actionE`, `button_callbackE`)
makes the two emission collaborators (`hass.bus.fire` and
`logbook.log_entry`) functions returning `Except`, mirroring that the
Python code has no try/except: an exception unwinds `button_callback`
leaving the mutations already performed in place.
-/

set_option autoImplicit false

namespace LutronCustom

/-- Raw values observed by `button_callback`'s `event` parameter:
`Button.Event.PRESSED`, `Button.Event.RELEASED`, or anything else
(`other`), which matches neither `if` in the callback body. -/
inductive RawEvent
  | pressed
  | released
  | other
deriving DecidableEq, Repr

/-- The two kinds of deferred action the code schedules:
`Timer(0.5, long_press_func)` and `Timer(1, super_long_press_func)`. -/
inductive PendingKind
  | long
  | superLong
deriving DecidableEq, Repr

/-- The delay (seconds) the code passes to `Timer` for each kind:
`0.5` for the long-press timer, `1` for the super-long-press timer. -/
def delayOf : PendingKind → ℚ
  | PendingKind.long => 1 / 2
  | PendingKind.superLong => 1

/-- `homeassistant.const.ATTR_ID`. -/
def ATTR_ID : String := "id"

/-- `ATTR_ACTION = "action"` from the module. -/
def ATTR_ACTION : String := "action"

/-- `ATTR_FULL_ID = "full_id"` from the module. -/
def ATTR_FULL_ID : String := "full_id"

/-- `DOMAIN = "lutron_custom"` from the module. -/
def DOMAIN : String := "lutron_custom"

/-- The immutable identity data a `LutronButton` copies at construction
(`__init__`): slugified id, full id, area name, button display name, the
release-capability flag `_has_release_event`, and the fixed event name
`self._event`. -/
structure ButtonCfg where
  id : String
  fullId : String
  areaName : String
  buttonName : String
  hasReleaseEvent : Bool
  eventName : String
deriving DecidableEq, Repr

/-- `pat` is a prefix of the second list. -/
def isPrefixL : List Char → List Char → Bool
  | [], _ => true
  | _ :: _, [] => false
  | a :: as, b :: bs => a = b && isPrefixL as bs

/-- `pat` occurs as a contiguous sublist. -/
def containsL (pat : List Char) : List Char → Bool
  | [] => pat.isEmpty
  | b :: bs => isPrefixL pat (b :: bs) || containsL pat bs

/-- Python's `"RaiseLower" in t` substring test. -/
def containsRaiseLower (t : String) : Bool :=
  containsL "RaiseLower".toList t.toList

/-- `LutronButton.__init__`: builds the identity fields.  `slug` stands for
`homeassistant.util.slugify`, an external collaborator.  Mirrors:
`name = f"{keypad.name}: {button.name}"`, with the button number appended
for `"Unknown Button"`; `_has_release_event` is
`button.button_type is not None and "RaiseLower" in button.button_type`;
`_id = slugify(name)`; `_full_id = slugify(f"{area_name} {name}")`;
`_event = "lutron_event"`. -/
def lutronButtonInit (slug : String → String) (areaName keypadName buttonName : String)
    (buttonNumber : Nat) (buttonType : Option String) : ButtonCfg :=
  let name0 := keypadName ++ ": " ++ buttonName
  let name := if buttonName = "Unknown Button" then name0 ++ " " ++ toString buttonNumber
    else name0
  { id := slug name
    fullId := slug (areaName ++ " " ++ name)
    areaName := areaName
    buttonName := buttonName
    hasReleaseEvent := match buttonType with
      | none => false
      | some t => containsRaiseLower t
    eventName := "lutron_event" }

/-! ## Lock-serialized model

Every `with self.lock:` section (the callback body, `long_press_func`,
`super_long_press_func`) is one atomic step.  The timer slot is the
abstract content of `self.timer`; the emitted actions are accumulated in
arrival order. -/

/-- Serialized classifier state: `self.timer`'s content and the actions
emitted so far (in order). -/
structure BState where
  timer : Option PendingKind
  events : List String
deriving DecidableEq, Repr

/-- State at construction: `self.timer = None`, nothing emitted. -/
def initB : BState := { timer := none, events := [] }

set_option linter.unusedVariables false in
/-- `LutronButton.button_callback` body under the lock: first
`if self.timer: self.timer.cancel(); self.timer = None` (unconditionally,
for every event kind), then `if event == PRESSED` emit `"pressed"` and arm
the 0.5 s long-press timer, then `if event == RELEASED` emit `"released"`
(the code never consults `_has_release_event` here).  The `cfg` argument
mirrors `self`; the callback body does not read any of its fields. -/
def button_callback (cfg : ButtonCfg) (event : RawEvent) (s : BState) : BState :=
  let s1 : BState := { s with timer := none }
  let s2 : BState :=
    if event = RawEvent.pressed then
      { s1 with events := s1.events ++ ["pressed"], timer := some PendingKind.long }
    else s1
  if event = RawEvent.released then
    { s2 with events := s2.events ++ ["released"] }
  else s2

/-- The pending timer fires (serialized): `long_press_func` emits
`"long_pressed"` and arms the 1 s super-long timer;
`super_long_press_func` clears the slot and emits `"super_long_pressed"`.
With no pending timer this is a no-op. -/
def timer_fire (s : BState) : BState :=
  match s.timer with
  | some PendingKind.long =>
      { timer := some PendingKind.superLong, events := s.events ++ ["long_pressed"] }
  | some PendingKind.superLong =>
      { timer := none, events := s.events ++ ["super_long_pressed"] }
  | none => s

/-- One serialized step on a button: a raw callback or the pending timer
firing. -/
inductive ActA
  | raw (e : RawEvent)
  | fire
deriving DecidableEq, Repr

/-- Apply one serialized step. -/
def stepA (cfg : ButtonCfg) : ActA → BState → BState
  | ActA.raw e, s => button_callback cfg e s
  | ActA.fire, s => timer_fire s

/-- Run a list of serialized steps in order. -/
def execA (cfg : ButtonCfg) : List ActA → BState → BState
  | [], s => s
  | a :: rest, s => execA cfg rest (stepA cfg a s)

/-- A concrete button whose type carries no `RaiseLower` marker, so the
release-capability flag is `false`. -/
def cfgNoRelease : ButtonCfg :=
  lutronButtonInit id "Living Room" "Keypad 1" "Scene 1" 1 (some "Toggle")

/-- A concrete button whose type contains `RaiseLower`, so the
release-capability flag is `true`. -/
def cfgRaiseLower : ButtonCfg :=
  lutronButtonInit id "Living Room" "Keypad 1" "Shades" 3 (some "MasterRaiseLower")

/-! ## Race model

`threading.Timer.cancel()` only prevents the scheduled function when the
timer is still waiting; once the wait has elapsed the function runs as
soon as it can take `self.lock`, and `cancel()` is a no-op.  Timer objects
are kept in a list indexed by creation order; `slot` is the index stored
in `self.timer` (if any). -/

/-- Lifecycle of one `threading.Timer` object. -/
inductive TStatus
  | armed
  | expired
  | cancelled
  | done
deriving DecidableEq, Repr

/-- One `threading.Timer` object: which deferred action it carries and
where it is in its lifecycle. -/
structure TimerObj where
  kind : PendingKind
  status : TStatus
deriving DecidableEq, Repr

/-- Update the `i`-th timer object, if it exists. -/
def modifyAt (l : List TimerObj) (i : Nat) (f : TimerObj → TimerObj) : List TimerObj :=
  match l.get? i with
  | none => l
  | some t => l.set i (f t)

/-- Race-model state of one button: the `self.timer` slot (an index into
`timers`), every timer object created so far, and the emitted actions. -/
structure RState where
  slot : Option Nat
  timers : List TimerObj
  events : List String
deriving DecidableEq, Repr

/-- State at construction. -/
def initR : RState := { slot := none, timers := [], events := [] }

/-- `if self.timer: self.timer.cancel(); self.timer = None` — the slot is
cleared; `cancel()` moves the timer to `cancelled` only if it is still
`armed` (an already-expired timer is unaffected). -/
def cancelPending (s : RState) : RState :=
  match s.slot with
  | none => s
  | some i =>
      { s with
        slot := none
        timers := modifyAt s.timers i (fun t =>
          if t.status = TStatus.armed then { t with status := TStatus.cancelled } else t) }

/-- `button_callback` under the lock, race model: unconditionally cancel
and clear the slot, then on PRESSED emit `"pressed"` and create/start a
fresh armed long-press timer stored in the slot; on RELEASED emit
`"released"`; anything else falls through both `if`s. -/
def deliverR (event : RawEvent) (s : RState) : RState :=
  let s1 := cancelPending s
  match event with
  | RawEvent.pressed =>
      let s2 := { s1 with events := s1.events ++ ["pressed"] }
      { s2 with
        timers := s2.timers ++ [⟨PendingKind.long, TStatus.armed⟩]
        slot := some s2.timers.length }
  | RawEvent.released => { s1 with events := s1.events ++ ["released"] }
  | RawEvent.other => s1

/-- Timer `i`'s wait elapses: an `armed` timer becomes `expired` (its
function is now committed to run once it gets the lock; `cancel()` can no
longer stop it).  Any other status: no-op. -/
def expireR (i : Nat) (s : RState) : RState :=
  match s.timers.get? i with
  | some t =>
      if t.status = TStatus.armed then
        { s with timers := modifyAt s.timers i (fun u => { u with status := TStatus.expired }) }
      else s
  | none => s

/-- Timer `i`'s function runs under the lock (only possible once
`expired`).  `long_press_func`: emit `"long_pressed"`, create/start a 1 s
super-long timer and overwrite `self.timer` with it — the code performs no
staleness check and does not compare the slot to itself.
`super_long_press_func`: set `self.timer = None`, emit
`"super_long_pressed"`. -/
def runR (i : Nat) (s : RState) : RState :=
  match s.timers.get? i with
  | some t =>
      if t.status = TStatus.expired then
        match t.kind with
        | PendingKind.long =>
            let s1 :=
              { s with
                events := s.events ++ ["long_pressed"]
                timers := modifyAt s.timers i (fun u => { u with status := TStatus.done }) }
            { s1 with
              timers := s1.timers ++ [⟨PendingKind.superLong, TStatus.armed⟩]
              slot := some s1.timers.length }
        | PendingKind.superLong =>
            { s with
              slot := none
              events := s.events ++ ["super_long_pressed"]
              timers := modifyAt s.timers i (fun u => { u with status := TStatus.done }) }
      else s
  | none => s

/-- One race-model step: a raw callback completing under the lock, a timer
expiring, or an expired timer's function running under the lock. -/
inductive ActR
  | deliver (e : RawEvent)
  | expire (i : Nat)
  | run (i : Nat)
deriving DecidableEq, Repr

/-- Apply one race-model step. -/
def stepR : ActR → RState → RState
  | ActR.deliver e, s => deliverR e s
  | ActR.expire i, s => expireR i s
  | ActR.run i, s => runR i s

/-- Run a list of race-model steps in order. -/
def execR : List ActR → RState → RState
  | [], s => s
  | a :: rest, s => execR rest (stepR a s)

/-- Number of timer objects currently armed. -/
def countArmed (s : RState) : Nat :=
  (s.timers.filter (fun t => t.status = TStatus.armed)).length

/-! ## Multi-button model

`setup` constructs one independent `LutronButton` per discovered button;
each owns its lock and timer slot and no state is shared.  A system state
maps each button (by its full id) to its classifier state; a step is
addressed to one button. -/

/-- State of all buttons. -/
def MState := String → BState

/-- A step addressed to button `a.1` applies only to that button's state. -/
def stepM (cfgs : String → ButtonCfg) (σ : MState) (a : String × ActA) : MState :=
  fun b => if b = a.1 then stepA (cfgs b) a.2 (σ b) else σ b

/-- Run an interleaved list of addressed steps. -/
def execM (cfgs : String → ButtonCfg) : List (String × ActA) → MState → MState
  | [], σ => σ
  | a :: rest, σ => execM cfgs rest (stepM cfgs σ a)

/-- The subsequence of an interleaved schedule addressed to button `b`. -/
def projOwn (b : String) (acts : List (String × ActA)) : List ActA :=
  acts.filterMap (fun p => if p.1 = b then some p.2 else none)

/-! ## Emission payload and fallible collaborators -/

/-- The `data` dict `button_action` builds:
`{ATTR_ID: self._id, ATTR_ACTION: action, ATTR_FULL_ID: self._full_id,
'area_name': self._area_name, 'button_name': self._button_name}`
(insertion order preserved). -/
def buttonData (cfg : ButtonCfg) (action : String) : List (String × String) :=
  [(ATTR_ID, cfg.id), (ATTR_ACTION, action), (ATTR_FULL_ID, cfg.fullId),
   ("area_name", cfg.areaName), ("button_name", cfg.buttonName)]

/-- A single-quote character, as Python's `str` uses around dict keys and
values. -/
def pyQuote : String := String.singleton (Char.ofNat 39)

/-- Python's `str(data)` for a dict of strings: keys in insertion order,
each entry rendered `'key': 'value'`, comma-space separated, wrapped in
braces. -/
def pyStrDict (kvs : List (String × String)) : String :=
  "\x7b" ++
    String.intercalate ", "
      (kvs.map (fun kv => pyQuote ++ kv.1 ++ pyQuote ++ ": " ++ pyQuote ++ kv.2 ++ pyQuote)) ++
  "\x7d"

/-- What one call to `button_action` does when nothing fails: fire
`self._event` with the payload on the bus and append one logbook entry
`log_entry(hass, action, str(data), DOMAIN)`. -/
structure EmitRecord where
  eventName : String
  payload : List (String × String)
  logAction : String
  logMessage : String
  logDomain : String
deriving DecidableEq, Repr

/-- `LutronButton.button_action` (pure view): build `data`, fire the event,
log the entry. -/
def button_action (cfg : ButtonCfg) (action : String) : EmitRecord :=
  let data := buttonData cfg action
  { eventName := cfg.eventName
    payload := data
    logAction := action
    logMessage := pyStrDict data
    logDomain := DOMAIN }

/-- Fallible-collaborator state: the timer slot plus the bus events
actually fired and the logbook entries actually appended. -/
structure EState where
  timer : Option PendingKind
  fired : List (String × List (String × String))
  logged : List (String × String × String)
deriving Repr

/-- State at construction, fallible model. -/
def initE : EState := { timer := none, fired := [], logged := [] }

/-- `button_action` with fallible collaborators `fireF` (`hass.bus.fire`)
and `logF` (`logbook.log_entry`).  The code has no try/except: if `fireF`
raises, the log call never happens; if `logF` raises, the bus event was
already fired.  The raised value is returned unchanged alongside the state
reached so far. -/
def button_actionE {ε : Type} (fireF : String → List (String × String) → Except ε Unit)
    (logF : String → String → String → Except ε Unit)
    (cfg : ButtonCfg) (action : String) (s : EState) : EState × Option ε :=
  let data := buttonData cfg action
  match fireF cfg.eventName data with
  | Except.error e => (s, some e)
  | Except.ok _ =>
      let s1 := { s with fired := s.fired ++ [(cfg.eventName, data)] }
      match logF action (pyStrDict data) DOMAIN with
      | Except.error e => (s1, some e)
      | Except.ok _ => ({ s1 with logged := s1.logged ++ [(action, pyStrDict data, DOMAIN)] }, none)

/-- `button_callback` with fallible collaborators.  The cancel block runs
first; on PRESSED the `"pressed"` emission precedes the creation and start
of the long-press timer, so an exception there leaves the slot empty and
propagates; on RELEASED the `"released"` emission's exception propagates
likewise; other events do nothing after the cancel block. -/
def button_callbackE {ε : Type} (fireF : String → List (String × String) → Except ε Unit)
    (logF : String → String → String → Except ε Unit)
    (cfg : ButtonCfg) (event : RawEvent) (s : EState) : EState × Option ε :=
  let s1 := { s with timer := none }
  match event with
  | RawEvent.pressed =>
      match button_actionE fireF logF cfg "pressed" s1 with
      | (s2, some e) => (s2, some e)
      | (s2, none) => ({ s2 with timer := some PendingKind.long }, none)
  | RawEvent.released => button_actionE fireF logF cfg "released" s1
  | RawEvent.other => (s1, none)

/-- `long_press_func` with fallible collaborators, as run by the timer
thread under the lock: `button_action("long_pressed")` first, then
`self.timer = Timer(1, super_long_press_func); self.timer.start()`.
There is no try/except: if the emission raises, the slot is not
overwritten and the raised value propagates to the timer callback's
caller (the timer thread). -/
def long_press_funcE {ε : Type} (fireF : String → List (String × String) → Except ε Unit)
    (logF : String → String → String → Except ε Unit)
    (cfg : ButtonCfg) (s : EState) : EState × Option ε :=
  match button_actionE fireF logF cfg "long_pressed" s with
  | (s1, some e) => (s1, some e)
  | (s1, none) => ({ s1 with timer := some PendingKind.superLong }, none)

/-- `super_long_press_func` with fallible collaborators:
`self.timer = None` first, then `button_action("super_long_pressed")`;
an exception there unwinds with the slot already cleared and propagates
to the timer callback's caller. -/
def super_long_press_funcE {ε : Type} (fireF : String → List (String × String) → Except ε Unit)
    (logF : String → String → String → Except ε Unit)
    (cfg : ButtonCfg) (s : EState) : EState × Option ε :=
  button_actionE fireF logF cfg "super_long_pressed" { s with timer := none }

/-! ## Claims -/

/-- C1: the claim says a button with release-capability `false` processing
[PRESS, RELEASE] emits only `["pressed"]`.  The code never reads
`_has_release_event` in `button_callback`: RELEASE always emits
`"released"`.  This theorem evaluates the code at the failing input: a
`Toggle` button (flag `false`) still emits `["pressed", "released"]`. -/
theorem c1_release_not_suppressed :
    cfgNoRelease.hasReleaseEvent = false ∧
    (execA cfgNoRelease [ActA.raw RawEvent.pressed, ActA.raw RawEvent.released] initB).events
      = ["pressed", "released"] :=
  ⟨by decide, rfl⟩

/-- C3 counterexample: the claim says an unrecognized raw event leaves the
state entirely unchanged, the pending timer still armed.  At the concrete
state with a pending long-press timer, an unrecognized event yields a
different state (the timer slot is cleared by the unconditional cancel
block). -/
theorem c3_counterexample :
    button_callback cfgNoRelease RawEvent.other
        { timer := some PendingKind.long, events := ["pressed"] }
      ≠ { timer := some PendingKind.long, events := ["pressed"] } := by
  decide

/-- C3 amended: for a raw event other than PRESS and RELEASE, no event is
emitted and no new timer is armed, but any pending timer is first
cancelled and the slot cleared (the cancel block runs for every callback
invocation); the state is otherwise unchanged. -/
theorem c3_other_event_only_cancels (cfg : ButtonCfg) (s : BState) :
    button_callback cfg RawEvent.other s = { s with timer := none } :=
  rfl

/-- C4: a single PRESS with both timers allowed to fire emits exactly
`["pressed", "long_pressed", "super_long_pressed"]` in that order —
`"pressed"` immediately, `"long_pressed"` from the 0.5 s timer,
`"super_long_pressed"` from the further 1 s timer — and ends with no
pending timer (IDLE). -/
theorem c4_long_press_escalation (cfg : ButtonCfg) :
    execA cfg [ActA.raw RawEvent.pressed] initB
        = { timer := some PendingKind.long, events := ["pressed"] } ∧
    execA cfg [ActA.raw RawEvent.pressed, ActA.fire] initB
        = { timer := some PendingKind.superLong, events := ["pressed", "long_pressed"] } ∧
    execA cfg [ActA.raw RawEvent.pressed, ActA.fire, ActA.fire] initB
        = { timer := none, events := ["pressed", "long_pressed", "super_long_pressed"] } ∧
    delayOf PendingKind.long = 1 / 2 ∧ delayOf PendingKind.superLong = 1 :=
  ⟨rfl, rfl, rfl, rfl, rfl⟩

set_option linter.unusedVariables false in
/-- C5: for a button with release-capability `true`, [PRESS, RELEASE] with
no intervening timer firing emits exactly `["pressed", "released"]` and
leaves no pending timer (the RELEASE cancels the armed long-press timer,
so no `"long_pressed"` is ever emitted). -/
theorem c5_press_release_roundtrip (cfg : ButtonCfg)
    (h : cfg.hasReleaseEvent = true) :
    execA cfg [ActA.raw RawEvent.pressed, ActA.raw RawEvent.released] initB
      = { timer := none, events := ["pressed", "released"] } :=
  rfl

/-- C5 witness: the roundtrip at a concrete `MasterRaiseLower` button. -/
theorem c5_press_release_roundtrip_witness :
    cfgRaiseLower.hasReleaseEvent = true ∧
    execA cfgRaiseLower [ActA.raw RawEvent.pressed, ActA.raw RawEvent.released] initB
      = { timer := none, events := ["pressed", "released"] } :=
  ⟨by decide, c5_press_release_roundtrip cfgRaiseLower (by decide)⟩

/-- C2: the claim says a timer superseded by a later raw event never runs
its scheduled action, even when the timer callback races with the
cancellation.  Race interleaving refuting it: PRESS arms timer 0; timer 0
expires (its function passes the cancellation check and waits for the
lock); a second PRESS runs — its `cancel()` finds timer 0 already expired
(first conjunct: timer 0 is still `expired`, not `cancelled`, after the
second PRESS) — then timer 0's function runs and emits a stale
`"long_pressed"` (second conjunct). -/
theorem c2_stale_timer_action_runs :
    (execR [ActR.deliver RawEvent.pressed, ActR.expire 0,
            ActR.deliver RawEvent.pressed] initR).timers.get? 0
        = some ⟨PendingKind.long, TStatus.expired⟩ ∧
    (execR [ActR.deliver RawEvent.pressed, ActR.expire 0,
            ActR.deliver RawEvent.pressed, ActR.run 0] initR).events
        = ["pressed", "pressed", "long_pressed"] :=
  ⟨rfl, rfl⟩

/-- C6: the claim says at most one pending timer exists per button at any
instant.  In the same race interleaving as for C2, after the stale
long-press callback runs, two timer objects are simultaneously armed: the
second press's 0.5 s timer and the 1 s super-long timer the stale callback
created (which also overwrote the slot). -/
theorem c6_two_timers_armed :
    countArmed (execR [ActR.deliver RawEvent.pressed, ActR.expire 0,
                       ActR.deliver RawEvent.pressed, ActR.run 0] initR) = 2 :=
  rfl

/-- C7: every emission uses the single fixed event name `"lutron_event"`,
carries exactly the payload `{id, action, full_id, area_name,
button_name}` built from the identity fields copied at construction, and
is accompanied by one log entry: the action plus the payload serialized as
text, under the integration domain. -/
theorem c7_payload_shape (slug : String → String)
    (areaName keypadName buttonName : String) (buttonNumber : Nat)
    (buttonType : Option String) (action : String) :
    button_action (lutronButtonInit slug areaName keypadName buttonName buttonNumber buttonType)
        action
      = { eventName := "lutron_event"
          payload :=
            buttonData (lutronButtonInit slug areaName keypadName buttonName buttonNumber
              buttonType) action
          logAction := action
          logMessage :=
            pyStrDict (buttonData (lutronButtonInit slug areaName keypadName buttonName
              buttonNumber buttonType) action)
          logDomain := DOMAIN } ∧
    buttonData (lutronButtonInit slug areaName keypadName buttonName buttonNumber buttonType)
        action
      = [("id", (lutronButtonInit slug areaName keypadName buttonName buttonNumber buttonType).id),
         ("action", action),
         ("full_id",
          (lutronButtonInit slug areaName keypadName buttonName buttonNumber buttonType).fullId),
         ("area_name", areaName), ("button_name", buttonName)] :=
  ⟨rfl, rfl⟩

/-- C8: if the event sink or the logging collaborator raises during any
emission — the PRESS or RELEASE emission of the raw-event callback, or
the `"long_pressed"` / `"super_long_pressed"` emission of a timer
callback — the raised value propagates to the caller of that callback
unchanged (no retry, no swallowing: there is no try/except in the
code). -/
theorem c8_collaborator_error_propagates {ε : Type}
    (fireF : String → List (String × String) → Except ε Unit)
    (logF : String → String → String → Except ε Unit)
    (cfg : ButtonCfg) (s : EState) (e : ε) :
    ((button_actionE fireF logF cfg "pressed" { s with timer := none }).2 = some e →
      (button_callbackE fireF logF cfg RawEvent.pressed s).2 = some e) ∧
    ((button_actionE fireF logF cfg "released" { s with timer := none }).2 = some e →
      (button_callbackE fireF logF cfg RawEvent.released s).2 = some e) ∧
    ((button_actionE fireF logF cfg "long_pressed" s).2 = some e →
      (long_press_funcE fireF logF cfg s).2 = some e) ∧
    ((button_actionE fireF logF cfg "super_long_pressed" { s with timer := none }).2 = some e →
      (super_long_press_funcE fireF logF cfg s).2 = some e) := by
  refine ⟨?_, ?_, ?_, ?_⟩
  · intro h
    cases hp : button_actionE fireF logF cfg "pressed" { s with timer := none } with
    | mk s2 r =>
        rw [hp] at h
        simp only [button_callbackE, hp]
        cases r with
        | none => exact absurd h (by simp)
        | some e2 => exact h
  · intro h
    cases hp : button_actionE fireF logF cfg "released" { s with timer := none } with
    | mk s2 r =>
        rw [hp] at h
        simp only [button_callbackE, hp]
        exact h
  · intro h
    cases hp : button_actionE fireF logF cfg "long_pressed" s with
    | mk s2 r =>
        rw [hp] at h
        simp only [long_press_funcE, hp]
        cases r with
        | none => exact absurd h (by simp)
        | some e2 => exact h
  · intro h
    exact h

/-- C8 witness: with an event sink that always raises `"boom"`, all four
callbacks — the PRESS and RELEASE raw-event paths and the two timer
callbacks — return `"boom"` to their respective callers. -/
theorem c8_collaborator_error_propagates_witness :
    (button_callbackE (fun _ _ => Except.error "boom")
        (fun _ _ _ => Except.ok ()) cfgNoRelease RawEvent.pressed initE).2 = some "boom" ∧
    (button_callbackE (fun _ _ => Except.error "boom")
        (fun _ _ _ => Except.ok ()) cfgNoRelease RawEvent.released initE).2 = some "boom" ∧
    (long_press_funcE (fun _ _ => Except.error "boom")
        (fun _ _ _ => Except.ok ()) cfgNoRelease initE).2 = some "boom" ∧
    (super_long_press_funcE (fun _ _ => Except.error "boom")
        (fun _ _ _ => Except.ok ()) cfgNoRelease initE).2 = some "boom" :=
  ⟨(c8_collaborator_error_propagates (fun _ _ => Except.error "boom")
      (fun _ _ _ => Except.ok ()) cfgNoRelease initE "boom").1 rfl,
   (c8_collaborator_error_propagates (fun _ _ => Except.error "boom")
      (fun _ _ _ => Except.ok ()) cfgNoRelease initE "boom").2.1 rfl,
   (c8_collaborator_error_propagates (fun _ _ => Except.error "boom")
      (fun _ _ _ => Except.ok ()) cfgNoRelease initE "boom").2.2.1 rfl,
   (c8_collaborator_error_propagates (fun _ _ => Except.error "boom")
      (fun _ _ _ => Except.ok ()) cfgNoRelease initE "boom").2.2.2 rfl⟩

/-- C10: if the event sink raises while emitting `"pressed"` during a
PRESS callback, no long-press timer is armed (the emission precedes the
timer creation/start), the pending-timer slot is left empty, no bus event
or log entry was produced, and the error propagates. -/
theorem c10_sink_error_aborts_escalation {ε : Type}
    (fireF : String → List (String × String) → Except ε Unit)
    (logF : String → String → String → Except ε Unit)
    (cfg : ButtonCfg) (s : EState) (e : ε)
    (h : fireF cfg.eventName (buttonData cfg "pressed") = Except.error e) :
    button_callbackE fireF logF cfg RawEvent.pressed s = ({ s with timer := none }, some e) := by
  simp only [button_callbackE, button_actionE, h]

/-- C10 witness: a sink raising `"sink down"` on the `"pressed"` emission
leaves the initial state with an empty timer slot and propagates the
error. -/
theorem c10_sink_error_aborts_escalation_witness :
    button_callbackE (fun _ _ => Except.error "sink down")
        (fun _ _ _ => Except.ok ()) cfgNoRelease RawEvent.pressed initE
      = ({ initE with timer := none }, some "sink down") :=
  c10_sink_error_aborts_escalation (fun _ _ => Except.error "sink down")
    (fun _ _ _ => Except.ok ()) cfgNoRelease initE "sink down" rfl

/-- C9: per-button isolation.  Running any interleaved schedule of steps
addressed to buttons leaves each button `b` exactly where running `b`'s
own subsequence alone would: interleaving with other buttons' streams
changes neither `b`'s emitted trace nor its final state (classifiers share
no mutable state). -/
theorem c9_per_button_isolation (cfgs : String → ButtonCfg)
    (acts : List (String × ActA)) (σ : MState) (b : String) :
    execM cfgs acts σ b = execA (cfgs b) (projOwn b acts) (σ b) := by
  induction acts generalizing σ with
  | nil => rfl
  | cons a rest ih =>
      rcases a with ⟨b', act⟩
      have hstep : execM cfgs ((b', act) :: rest) σ b
          = execM cfgs rest (stepM cfgs σ (b', act)) b := rfl
      rw [hstep, ih]
      by_cases h : b' = b
      · subst h
        simp [stepM, projOwn, execA]
      · simp [stepM, projOwn, execA, h, Ne.symm h]

end LutronCustom
